import Mathlib

/-
Shallow embedding of the ticket-purchase pricing and validation logic of
`src/views/LotteryV2/components/BuyTicketsModal/BuyTicketsModal.tsx`.

Modelling conventions:
* `BigNumber` values (token amounts, prices, and the balance-derived maximum
  purchase) are modelled as exact rationals `ℚ`; BigNumber `plus`, `minus`,
  `times`, `div`, `gt`, `eq` are the exact rational operations and relations.
* JavaScript `parseInt(input, 10)` is modelled by `parseIntJs : String → Option ℤ`
  with `none` standing for `NaN` (non-numeric or empty input). Every BigNumber
  comparison against NaN is false in the source, so in the NaN case
  `handleInputChange` reaches the final `else` branch and stores `'0'`; the
  embedding reproduces exactly that branch in its `none` case.
* The component state `ticketsToBuy` is a string in the source, but every
  write to it is the decimal rendering of an integer (`'0'`, the clamped
  `parseInt` result with an integer cap, or `Math.floor(...).toFixed()`), so
  it is modelled as `ℤ`; the `!ticketsToBuy` emptiness test in `disableBuying`
  is constant false on those values and is therefore not represented.
* Display formatting (`getFullDisplayBalance`, which rescales by `10^18` and
  truncates decimal places) is out of scope; a displayed cost figure is
  modelled by the value the source clamps, i.e. `x` when `0 < x` and `0`
  otherwise, mirroring the `value.gt(0) ? format(value) : '0'` pattern of
  lines 141-143.
-/

/-- Characters JavaScript `parseInt` skips as leading whitespace. -/
def isJsSpace (c : Char) : Bool :=
  c == ' ' || c == '\t' || c == '\n' || c == '\r'

/-- Value of the longest leading run of decimal digits; `none` when there is
no leading digit (the `NaN` case of `parseInt`). -/
def digitsVal (cs : List Char) : Option ℕ :=
  let ds := cs.takeWhile Char.isDigit
  if ds.isEmpty then none
  else some (ds.foldl (fun acc c => acc * 10 + (c.toNat - 48)) 0)

/-- JavaScript `parseInt(input, 10)`: skip leading whitespace, read an
optional sign and then the longest digit prefix; `none` models `NaN`. -/
def parseIntJs (s : String) : Option ℤ :=
  match s.toList.dropWhile (fun c => isJsSpace c) with
  | '-' :: rest => (digitsVal rest).map (fun n => -(n : ℤ))
  | '+' :: rest => (digitsVal rest).map (fun n => (n : ℤ))
  | cs => (digitsVal cs).map (fun n => (n : ℤ))

/-- The slice of component state the validation logic reads and writes:
`ticketsToBuy` (always an integer, see the header comment),
`userNotEnoughCake` (the insufficient-balance flag) and
`maxTicketPurchaseExceeded` (the cap-exceeded flag). -/
structure ModalState where
  ticketsToBuy : ℤ
  userNotEnoughCake : Bool
  maxTicketPurchaseExceeded : Bool

/-- Source lines 101-106: `number.gt(maxNumberTicketsPerBuyOrClaim) ?
maxNumberTicketsPerBuyOrClaim : number`, on BigNumber values. -/
def limitNumberByMaxTicketsPerBuy (maxNumberTicketsPerBuyOrClaim number : ℚ) : ℚ :=
  if maxNumberTicketsPerBuyOrClaim < number then maxNumberTicketsPerBuyOrClaim else number

/-- The same clamp at integer arguments, as it is applied inside
`handleInputChange` where both the `parseInt` result and the cap are
integers. -/
def limitInt (maxNumberTicketsPerBuyOrClaim number : ℤ) : ℤ :=
  if maxNumberTicketsPerBuyOrClaim < number then maxNumberTicketsPerBuyOrClaim else number

/-- Source lines 109-111 (`getMaxPossiblePurchase`): `maxBalancePurchase =
memoisedUserCake.div(priceTicketInCake)` followed by
`limitNumberByMaxTicketsPerBuy`. Note the quotient is not floored. -/
def maxPossiblePurchase (balance priceTicketInCake cap : ℚ) : ℚ :=
  limitNumberByMaxTicketsPerBuy cap (balance / priceTicketInCake)

/-- Source lines 112-116: `userNotEnoughCake` is set to true exactly when
`hasFetchedBalance && maxPurchase.eq(0)`, and to false otherwise. -/
def userNotEnoughCakeFlag (hasFetchedBalance : Bool) (maxPurchase : ℚ) : Bool :=
  hasFetchedBalance && decide (maxPurchase = 0)

/-- Source line 138: `costBeforeDiscount = priceTicketInCake.times(n)`. -/
def costBeforeDiscount (priceTicketInCake numberOfTicketsToBuy : ℚ) : ℚ :=
  priceTicketInCake * numberOfTicketsToBuy

/-- Source lines 130-136 (`getCostAfterDiscount`):
`priceTicketInCake.times(n).times(discountDivisor.plus(1).minus(n)).div(discountDivisor)`. -/
def getCostAfterDiscount (priceTicketInCake discountDivisor numberOfTicketsToBuy : ℚ) : ℚ :=
  priceTicketInCake * numberOfTicketsToBuy *
    (discountDivisor + 1 - numberOfTicketsToBuy) / discountDivisor

/-- Source line 139: `discountBeingApplied = costBeforeDiscount.minus(costAfterDiscount)`. -/
def discountBeingApplied (priceTicketInCake discountDivisor numberOfTicketsToBuy : ℚ) : ℚ :=
  costBeforeDiscount priceTicketInCake numberOfTicketsToBuy -
    getCostAfterDiscount priceTicketInCake discountDivisor numberOfTicketsToBuy

/-- Spec formula, section 4.1: `costBeforeDiscount = priceTicketInCake * n`. -/
def spec_costBeforeDiscount (priceTicketInCake n : ℚ) : ℚ :=
  priceTicketInCake * n

/-- Spec formula, section 4.1:
`costAfterDiscount = priceTicketInCake * n * (discountDivisor + 1 - n) / discountDivisor`. -/
def spec_costAfterDiscount (priceTicketInCake discountDivisor n : ℚ) : ℚ :=
  priceTicketInCake * n * (discountDivisor + 1 - n) / discountDivisor

/-- Spec formula, section 4.1: `discountAmount = costBeforeDiscount - costAfterDiscount`. -/
def spec_discountAmount (priceTicketInCake discountDivisor n : ℚ) : ℚ :=
  spec_costBeforeDiscount priceTicketInCake n -
    spec_costAfterDiscount priceTicketInCake discountDivisor n

/-- The clamp applied before display on source lines 141-143:
`value.gt(0) ? format(value) : '0'`. -/
def clampDisplay (x : ℚ) : ℚ :=
  if 0 < x then x else 0

/-- Displayed cost before discount (source line 141). -/
def displayedTicketCostBeforeDiscount (priceTicketInCake n : ℚ) : ℚ :=
  clampDisplay (costBeforeDiscount priceTicketInCake n)

/-- Displayed total cost after discount (source line 142). -/
def displayedTotalCost (priceTicketInCake discountDivisor n : ℚ) : ℚ :=
  clampDisplay (getCostAfterDiscount priceTicketInCake discountDivisor n)

/-- Displayed discount amount (source line 143). -/
def displayedDiscountValue (priceTicketInCake discountDivisor n : ℚ) : ℚ :=
  clampDisplay (discountBeingApplied priceTicketInCake discountDivisor n)

/-- Source lines 146-151 (`getNumTicketsByPercentage`):
`Math.floor((maxPossibleTicketPurchase.gt(0) ?
maxPossibleTicketPurchase.div(100).times(percentage) : 0).toNumber())`. -/
def getNumTicketsByPercentage (maxPossibleTicketPurchase percentage : ℚ) : ℤ :=
  Int.floor (if 0 < maxPossibleTicketPurchase
    then maxPossibleTicketPurchase / 100 * percentage else 0)

/-- Disabled condition of each percentage shortcut button, source lines
302-327: `!hasFetchedBalance || count < 1`. -/
def numTicketsButtonDisabled (hasFetchedBalance : Bool) (count : ℤ) : Bool :=
  !hasFetchedBalance || decide (count < 1)

/-- Source lines 158-161: `priceTicketInCake.times(numberOfTickets)`. -/
def getCakeValueOfTickets (priceTicketInCake numberOfTickets : ℚ) : ℚ :=
  priceTicketInCake * numberOfTickets

/-- Source lines 163-179 (`handleInputChange`). The `none` case is the NaN
path: both BigNumber comparisons are false against NaN so the final `else`
branch clears both flags, and `inputAsInt ? ... : '0'` stores `'0'`. In the
`some` case the input is clamped by the per-transaction cap, priced, and
compared against the balance and against `maxPossibleTicketPurchase` exactly
as in the source; `setTicketsToBuy` stores the clamped count unless the
parsed input was `0` (falsy in JS). -/
def handleInputChange (priceTicketInCake userCake maxPossibleTicketPurchase : ℚ)
    (maxNumberTicketsPerBuyOrClaim : ℤ) (input : String) (st : ModalState) : ModalState :=
  match parseIntJs input with
  | none =>
      { ticketsToBuy := 0, userNotEnoughCake := false, maxTicketPurchaseExceeded := false }
  | some inputAsInt =>
      let limitedNumberTickets := limitInt maxNumberTicketsPerBuyOrClaim inputAsInt
      let cakeValueOfInput := getCakeValueOfTickets priceTicketInCake (limitedNumberTickets : ℚ)
      let newTicketsToBuy : ℤ := if inputAsInt = 0 then 0 else limitedNumberTickets
      if userCake < cakeValueOfInput then
        { st with userNotEnoughCake := true, ticketsToBuy := newTicketsToBuy }
      else if (limitedNumberTickets : ℚ) = maxPossibleTicketPurchase then
        { st with maxTicketPurchaseExceeded := true, ticketsToBuy := newTicketsToBuy }
      else
        { ticketsToBuy := newTicketsToBuy, userNotEnoughCake := false,
          maxTicketPurchaseExceeded := false }

/-- Source lines 236-242: `disableBuying = !isApproved || isConfirmed ||
userNotEnoughCake || !ticketsToBuy || new BigNumber(ticketsToBuy).lte(0) ||
getTicketsForPurchase().length !== parseInt(ticketsToBuy, 10)`.
`numTicketsForPurchase` is the length of the ticket-set collaborator's
output; `parseInt` on the integer-valued `ticketsToBuy` string is the
identity, and `!ticketsToBuy` is constant false on the numeric strings the
component stores (see header comment). -/
def disableBuying (isApproved isConfirmed : Bool) (st : ModalState)
    (numTicketsForPurchase : ℕ) : Bool :=
  !isApproved || isConfirmed || st.userNotEnoughCake ||
    decide (st.ticketsToBuy ≤ 0) ||
    decide ((numTicketsForPurchase : ℤ) ≠ st.ticketsToBuy)

/-- Source lines 194-202 (`onRequiresApproval`): query the allowance; on
success return `allowance > 0`; on a thrown error return `false`. The
external call outcome is the `Except` argument. -/
def onRequiresApproval (allowanceResult : Except Unit ℚ) : Bool :=
  match allowanceResult with
  | Except.ok currentAllowance => decide (0 < currentAllowance)
  | Except.error _ => false

/-- Concrete raw input used by witnesses: a numeral above the caps chosen
there. -/
def sampleInputTen : String := "10"

/-- Concrete non-numeric raw input used by witnesses. -/
def sampleInputAlpha : String := "abc"

/-- Concrete empty raw input used by witnesses. -/
def sampleInputEmpty : String := ""

/-- C1: the pricing engine computes `costBeforeDiscount = price * n`,
`costAfterDiscount = price * n * (discountDivisor + 1 - n) / discountDivisor`
and `discountAmount = costBeforeDiscount - costAfterDiscount`, in exact
arithmetic (BigNumber values modelled as exact rationals): the three
source-side definitions coincide with the spec-side formulas for every
price, divisor and ticket count. -/
theorem pricing_formulas_match_spec (priceTicketInCake discountDivisor n : ℚ) :
    costBeforeDiscount priceTicketInCake n = spec_costBeforeDiscount priceTicketInCake n ∧
    getCostAfterDiscount priceTicketInCake discountDivisor n =
      spec_costAfterDiscount priceTicketInCake discountDivisor n ∧
    discountBeingApplied priceTicketInCake discountDivisor n =
      spec_discountAmount priceTicketInCake discountDivisor n :=
  ⟨rfl, rfl, rfl⟩

/-- C2 counterexample: with balance 3, price 2, cap 10 the code computes
`3 / 2`, not `min (floor (3 / 2)) 10 = 1`; the result is not an integer
number of tickets, because `getMaxPossiblePurchase` never floors
the quotient `balance / price`. -/
theorem maxPossiblePurchase_not_floored :
    maxPossiblePurchase 3 2 10 = 3 / 2 ∧
    Int.floor ((3 : ℚ) / 2) = 1 ∧
    maxPossiblePurchase 3 2 10 ≠ ((min (Int.floor ((3 : ℚ) / 2)) 10 : ℤ) : ℚ) := by
  refine ⟨?_, ?_, ?_⟩
  · simp only [maxPossiblePurchase, limitNumberByMaxTicketsPerBuy]
    norm_num
  · rw [Int.floor_eq_iff]
    norm_num
  · simp only [maxPossiblePurchase, limitNumberByMaxTicketsPerBuy]
    norm_num

/-- C2 (amended): for every balance, price and cap, the validator computes
`maxPossiblePurchase = min (balance / price) cap` with the exact (unfloored)
quotient; the result need not be an integer number of tickets. -/
theorem maxPossiblePurchase_eq_min (balance priceTicketInCake cap : ℚ) :
    maxPossiblePurchase balance priceTicketInCake cap =
      min (balance / priceTicketInCake) cap := by
  simp only [maxPossiblePurchase, limitNumberByMaxTicketsPerBuy]
  rcases lt_or_ge cap (balance / priceTicketInCake) with h | h
  · rw [if_pos h, min_eq_right h.le]
  · rw [if_neg (not_lt.mpr h), min_eq_left h]

/-- C3: the purchase (confirm) action is enabled (i.e. `disableBuying` is
false) iff approval is granted, the flow is not already confirmed, the
insufficient-balance flag is false, the requested quantity is positive, and
the ticket-set collaborator returned exactly that many ticket-number sets. -/
theorem disableBuying_iff (isApproved isConfirmed : Bool) (st : ModalState)
    (numTicketsForPurchase : ℕ) :
    disableBuying isApproved isConfirmed st numTicketsForPurchase = false ↔
      isApproved = true ∧ isConfirmed = false ∧ st.userNotEnoughCake = false ∧
      0 < st.ticketsToBuy ∧ (numTicketsForPurchase : ℤ) = st.ticketsToBuy := by
  simp [disableBuying, not_le, and_assoc]

/-- C4: the allowance check reports approval exactly when the external
allowance query succeeds with a strictly positive value; a thrown query
error always yields `false` (needs approval), never approval. -/
theorem onRequiresApproval_spec :
    (∀ r : Except Unit ℚ, onRequiresApproval r = true ↔
      ∃ a, r = Except.ok a ∧ 0 < a) ∧
    onRequiresApproval (Except.error ()) = false := by
  constructor
  · intro r
    cases r with
    | ok a => simp [onRequiresApproval]
    | error e => simp [onRequiresApproval]
  · rfl

/-- C7: the insufficient-balance flag produced by `getMaxPossiblePurchase`
is true iff the balance fetch has completed and `maxPossiblePurchase` is 0;
and in the scenario balance = 0 with price > 0 and a non-negative cap,
`maxPossiblePurchase` is 0 and the flag is set once the fetch completes. -/
theorem insufficientBalance_iff (hasFetchedBalance : Bool)
    (balance priceTicketInCake cap : ℚ) :
    (userNotEnoughCakeFlag hasFetchedBalance
        (maxPossiblePurchase balance priceTicketInCake cap) = true ↔
      hasFetchedBalance = true ∧
      maxPossiblePurchase balance priceTicketInCake cap = 0) ∧
    (0 < priceTicketInCake → 0 ≤ cap →
      maxPossiblePurchase 0 priceTicketInCake cap = 0 ∧
      userNotEnoughCakeFlag true (maxPossiblePurchase 0 priceTicketInCake cap) = true) := by
  constructor
  · simp [userNotEnoughCakeFlag]
  · intro hp hc
    have h0 : maxPossiblePurchase 0 priceTicketInCake cap = 0 := by
      simp only [maxPossiblePurchase, limitNumberByMaxTicketsPerBuy, zero_div]
      rw [if_neg (not_lt.mpr hc)]
    exact ⟨h0, by simp [userNotEnoughCakeFlag, h0]⟩

/-- Witness for C7: balance 0, price 2, cap 10. -/
theorem insufficientBalance_iff_witness :
    maxPossiblePurchase 0 2 10 = 0 ∧
    userNotEnoughCakeFlag true (maxPossiblePurchase 0 2 10) = true :=
  (insufficientBalance_iff true 0 2 10).2 (by norm_num) (by norm_num)

/-- The display clamp is non-negative. -/
theorem clampDisplay_nonneg (x : ℚ) : 0 ≤ clampDisplay x := by
  unfold clampDisplay
  split
  · linarith
  · exact le_refl 0

/-- The display clamp is monotone. -/
theorem clampDisplay_mono {a b : ℚ} (h : a ≤ b) : clampDisplay a ≤ clampDisplay b := by
  unfold clampDisplay
  by_cases ha : 0 < a <;> by_cases hb : 0 < b <;> simp [ha, hb] <;> linarith

/-- C6: for every ticket count n ≥ 0 (a natural number), price ≥ 0 and
discount divisor > 0, the displayed cost after discount is at most the
displayed cost before discount, and all three displayed figures are
non-negative (raw results ≤ 0 are clamped to zero before display). -/
theorem displayed_costs_ordered (priceTicketInCake discountDivisor : ℚ) (n : ℕ)
    (hp : 0 ≤ priceTicketInCake) (hd : 0 < discountDivisor) :
    displayedTotalCost priceTicketInCake discountDivisor n ≤
      displayedTicketCostBeforeDiscount priceTicketInCake n ∧
    0 ≤ displayedTicketCostBeforeDiscount priceTicketInCake n ∧
    0 ≤ displayedTotalCost priceTicketInCake discountDivisor n ∧
    0 ≤ displayedDiscountValue priceTicketInCake discountDivisor n := by
  have hnn : (0 : ℚ) ≤ (n : ℚ) * ((n : ℚ) - 1) := by
    rcases n with _ | m
    · norm_num
    · have hm : (0 : ℚ) ≤ (m : ℚ) := by positivity
      push_cast
      nlinarith
  have key : getCostAfterDiscount priceTicketInCake discountDivisor n ≤
      costBeforeDiscount priceTicketInCake n := by
    unfold getCostAfterDiscount costBeforeDiscount
    rw [div_le_iff₀ hd]
    nlinarith [mul_nonneg hp hnn]
  exact ⟨clampDisplay_mono key, clampDisplay_nonneg _, clampDisplay_nonneg _,
    clampDisplay_nonneg _⟩

/-- Witness for C6: price 1, divisor 2000, n = 2 tickets. -/
theorem displayed_costs_ordered_witness :
    displayedTotalCost 1 2000 ((2 : ℕ) : ℚ) ≤
      displayedTicketCostBeforeDiscount 1 ((2 : ℕ) : ℚ) ∧
    0 ≤ displayedTicketCostBeforeDiscount 1 ((2 : ℕ) : ℚ) ∧
    0 ≤ displayedTotalCost 1 2000 ((2 : ℕ) : ℚ) ∧
    0 ≤ displayedDiscountValue 1 2000 ((2 : ℕ) : ℚ) :=
  displayed_costs_ordered 1 2000 2 (by norm_num) (by norm_num)

/-- C8: for each shortcut percentage (10, 25, 50 or 100) and a non-negative
maximum purchase, the offered count is `floor (maxPossible * pct / 100)`,
and an enabled shortcut button implies the count is at least 1 and the
balance has been fetched. -/
theorem ticketsByPercentage_floor (maxPossibleTicketPurchase percentage : ℚ)
    (hm : 0 ≤ maxPossibleTicketPurchase)
    (hpct : percentage = 10 ∨ percentage = 25 ∨ percentage = 50 ∨ percentage = 100)
    (hasFetchedBalance : Bool) :
    getNumTicketsByPercentage maxPossibleTicketPurchase percentage =
      Int.floor (maxPossibleTicketPurchase * percentage / 100) ∧
    (numTicketsButtonDisabled hasFetchedBalance
        (getNumTicketsByPercentage maxPossibleTicketPurchase percentage) = false →
      1 ≤ getNumTicketsByPercentage maxPossibleTicketPurchase percentage ∧
      hasFetchedBalance = true) := by
  constructor
  · unfold getNumTicketsByPercentage
    rcases lt_or_eq_of_le hm with h | h
    · rw [if_pos h, div_mul_eq_mul_div]
    · rw [if_neg (by rw [← h]; exact lt_irrefl 0), ← h]
      norm_num
  · intro hdis
    simp only [numTicketsButtonDisabled, Bool.or_eq_false_iff,
      Bool.not_eq_false', decide_eq_false_iff_not, not_lt] at hdis
    exact ⟨hdis.2, hdis.1⟩

/-- Witness for C8: maximum purchase 7, shortcut 50 percent. -/
theorem ticketsByPercentage_floor_witness :
    getNumTicketsByPercentage 7 50 = Int.floor ((7 : ℚ) * 50 / 100) ∧
    (numTicketsButtonDisabled true (getNumTicketsByPercentage 7 50) = false →
      1 ≤ getNumTicketsByPercentage 7 50 ∧ (true : Bool) = true) :=
  ticketsByPercentage_floor 7 50 (by norm_num) (Or.inr (Or.inr (Or.inl rfl))) true

/-- Reduction of `handleInputChange` on an input whose `parseInt` succeeds. -/
theorem handleInputChange_some (priceTicketInCake userCake maxPossibleTicketPurchase : ℚ)
    (cap inputAsInt : ℤ) (input : String) (st : ModalState)
    (hparse : parseIntJs input = some inputAsInt) :
    handleInputChange priceTicketInCake userCake maxPossibleTicketPurchase cap input st =
      (if userCake < priceTicketInCake * ((limitInt cap inputAsInt : ℤ) : ℚ) then
        { st with
            userNotEnoughCake := true
            ticketsToBuy := if inputAsInt = 0 then 0 else limitInt cap inputAsInt }
      else if ((limitInt cap inputAsInt : ℤ) : ℚ) = maxPossibleTicketPurchase then
        { st with
            maxTicketPurchaseExceeded := true
            ticketsToBuy := if inputAsInt = 0 then 0 else limitInt cap inputAsInt }
      else
        { ticketsToBuy := if inputAsInt = 0 then 0 else limitInt cap inputAsInt,
          userNotEnoughCake := false, maxTicketPurchaseExceeded := false }) := by
  unfold handleInputChange
  rw [hparse]
  rfl

/-- Reduction of `handleInputChange` on non-numeric input (`parseInt` NaN). -/
theorem handleInputChange_nan (priceTicketInCake userCake maxPossibleTicketPurchase : ℚ)
    (cap : ℤ) (input : String) (st : ModalState)
    (hparse : parseIntJs input = none) :
    handleInputChange priceTicketInCake userCake maxPossibleTicketPurchase cap input st =
      { ticketsToBuy := 0, userNotEnoughCake := false,
        maxTicketPurchaseExceeded := false } := by
  unfold handleInputChange
  rw [hparse]

/-- C5 counterexample: with price 2, balance 2, cap 5 (hence
`maxPossiblePurchase = min (2 / 2) 5 = 1`, passed here as 1) and raw input
`"10"` exceeding the cap, the handler clamps to the cap (5) but sets the
insufficient-balance flag and leaves the cap-exceeded flag false, refuting
the claim that any input exceeding the cap sets the cap-exceeded flag. -/
theorem capExceeded_not_set_when_unaffordable :
    ((5 : ℤ) < 10) ∧
    (handleInputChange 2 2 1 5 sampleInputTen ⟨0, false, false⟩).ticketsToBuy = 5 ∧
    (handleInputChange 2 2 1 5 sampleInputTen ⟨0, false, false⟩).maxTicketPurchaseExceeded
      = false ∧
    (handleInputChange 2 2 1 5 sampleInputTen ⟨0, false, false⟩).userNotEnoughCake
      = true := by
  have h := handleInputChange_some 2 2 1 5 10 sampleInputTen ⟨0, false, false⟩ (by decide)
  rw [show limitInt 5 10 = 5 by decide] at h
  rw [if_pos (by norm_num : (2 : ℚ) < 2 * (((5 : ℤ) : ℤ) : ℚ))] at h
  rw [if_neg (by norm_num : ¬ (10 : ℤ) = 0)] at h
  refine ⟨by norm_num, ?_, ?_, ?_⟩ <;> rw [h]

/-- C5 (amended): the handler clamps the parsed input to
`limited = min (rawInput) cap`; if `price * limited > balance` it sets the
insufficient-balance flag (leaving the cap-exceeded flag unchanged), else if
`limited` equals `maxPossiblePurchase` it sets the cap-exceeded flag
(leaving the insufficient-balance flag unchanged), and otherwise it clears
both flags; for raw input exceeding the cap, `limited` equals the cap, and
the cap-exceeded flag is set provided the capped cost is affordable
(`price * cap ≤ balance` with `price > 0` and `maxPossiblePurchase =
min (balance / price) cap`). -/
theorem handleInputChange_spec (priceTicketInCake userCake maxPossibleTicketPurchase : ℚ)
    (cap inputAsInt : ℤ) (input : String) (st : ModalState)
    (hparse : parseIntJs input = some inputAsInt) :
    limitInt cap inputAsInt = min inputAsInt cap ∧
    (userCake < priceTicketInCake * ((limitInt cap inputAsInt : ℤ) : ℚ) →
      handleInputChange priceTicketInCake userCake maxPossibleTicketPurchase cap input st =
        { st with
            userNotEnoughCake := true
            ticketsToBuy := if inputAsInt = 0 then 0 else limitInt cap inputAsInt }) ∧
    (¬ userCake < priceTicketInCake * ((limitInt cap inputAsInt : ℤ) : ℚ) →
      ((limitInt cap inputAsInt : ℤ) : ℚ) = maxPossibleTicketPurchase →
      handleInputChange priceTicketInCake userCake maxPossibleTicketPurchase cap input st =
        { st with
            maxTicketPurchaseExceeded := true
            ticketsToBuy := if inputAsInt = 0 then 0 else limitInt cap inputAsInt }) ∧
    (¬ userCake < priceTicketInCake * ((limitInt cap inputAsInt : ℤ) : ℚ) →
      ((limitInt cap inputAsInt : ℤ) : ℚ) ≠ maxPossibleTicketPurchase →
      handleInputChange priceTicketInCake userCake maxPossibleTicketPurchase cap input st =
        { ticketsToBuy := if inputAsInt = 0 then 0 else limitInt cap inputAsInt,
          userNotEnoughCake := false, maxTicketPurchaseExceeded := false }) ∧
    (cap < inputAsInt → 0 < priceTicketInCake →
      priceTicketInCake * (cap : ℚ) ≤ userCake →
      maxPossibleTicketPurchase = min (userCake / priceTicketInCake) (cap : ℚ) →
      limitInt cap inputAsInt = cap ∧
      (handleInputChange priceTicketInCake userCake maxPossibleTicketPurchase cap input
          st).maxTicketPurchaseExceeded = true) := by
  have hred := handleInputChange_some priceTicketInCake userCake maxPossibleTicketPurchase
    cap inputAsInt input st hparse
  refine ⟨?_, ?_, ?_, ?_, ?_⟩
  · unfold limitInt
    rcases lt_or_ge cap inputAsInt with h | h
    · rw [if_pos h, min_eq_right h.le]
    · rw [if_neg (not_lt.mpr h), min_eq_left h]
  · intro hlt
    rw [hred, if_pos hlt]
  · intro hnlt heq
    rw [hred, if_neg hnlt, if_pos heq]
  · intro hnlt hne
    rw [hred, if_neg hnlt, if_neg hne]
  · intro hcapi hp hafford hmax
    have hlc : limitInt cap inputAsInt = cap := by
      unfold limitInt
      rw [if_pos hcapi]
    have hcm : ((limitInt cap inputAsInt : ℤ) : ℚ) = maxPossibleTicketPurchase := by
      rw [hlc, hmax]
      have hle : (cap : ℚ) ≤ userCake / priceTicketInCake := by
        rw [le_div_iff₀ hp]
        linarith [hafford]
      rw [min_eq_right hle]
    have hnlt : ¬ userCake < priceTicketInCake * ((limitInt cap inputAsInt : ℤ) : ℚ) := by
      rw [hlc]
      exact not_lt.mpr hafford
    refine ⟨hlc, ?_⟩
    rw [hred, if_neg hnlt, if_pos hcm]

/-- Witness for C5 (amended): price 1, balance 100, cap 5, raw input `"10"`,
where `maxPossiblePurchase = min (100 / 1) 5 = 5`; the affordable-cap branch
sets the cap-exceeded flag. -/
theorem handleInputChange_spec_witness :
    limitInt 5 10 = 5 ∧
    (handleInputChange 1 100 5 5 sampleInputTen
        ⟨0, false, false⟩).maxTicketPurchaseExceeded = true := by
  have h := handleInputChange_spec 1 100 5 5 10 sampleInputTen ⟨0, false, false⟩ (by decide)
  exact h.2.2.2.2 (by decide) (by norm_num) (by norm_num) (by norm_num)

/-- C9: on any raw input whose `parseInt` is NaN (every non-numeric or empty
string), the handler normalizes the requested quantity to 0 and clears both
validation flags; it is a total function, so no error is raised. -/
theorem nonNumericInput_normalized (priceTicketInCake userCake maxPossibleTicketPurchase : ℚ)
    (cap : ℤ) (input : String) (st : ModalState)
    (hparse : parseIntJs input = none) :
    (handleInputChange priceTicketInCake userCake maxPossibleTicketPurchase cap input
        st).ticketsToBuy = 0 ∧
    (handleInputChange priceTicketInCake userCake maxPossibleTicketPurchase cap input
        st).userNotEnoughCake = false ∧
    (handleInputChange priceTicketInCake userCake maxPossibleTicketPurchase cap input
        st).maxTicketPurchaseExceeded = false := by
  rw [handleInputChange_nan priceTicketInCake userCake maxPossibleTicketPurchase cap input
    st hparse]
  exact ⟨rfl, rfl, rfl⟩

/-- Witness for C9: the non-numeric input `"abc"` and the empty input. -/
theorem nonNumericInput_normalized_witness :
    (handleInputChange 1 1 1 5 sampleInputAlpha ⟨3, true, true⟩).ticketsToBuy = 0 ∧
    (handleInputChange 1 1 1 5 sampleInputEmpty ⟨3, true, true⟩).ticketsToBuy = 0 :=
  ⟨(nonNumericInput_normalized 1 1 1 5 sampleInputAlpha ⟨3, true, true⟩ (by decide)).1,
   (nonNumericInput_normalized 1 1 1 5 sampleInputEmpty ⟨3, true, true⟩ (by decide)).1⟩

/-- C10: in any state where the cap-exceeded flag is set but the
insufficient-balance flag is not, with approval granted, the flow not
confirmed, a positive quantity and a matching ticket-set count, buying stays
enabled; moreover `disableBuying` never consults the cap-exceeded flag. -/
theorem disableBuying_ignores_capExceeded (isApproved isConfirmed : Bool)
    (st : ModalState) (numTicketsForPurchase : ℕ)
    (hcap : st.maxTicketPurchaseExceeded = true)
    (hbal : st.userNotEnoughCake = false)
    (happ : isApproved = true) (hconf : isConfirmed = false)
    (hpos : 0 < st.ticketsToBuy)
    (hlen : (numTicketsForPurchase : ℤ) = st.ticketsToBuy) :
    disableBuying isApproved isConfirmed st numTicketsForPurchase = false ∧
    ∀ b : Bool, disableBuying isApproved isConfirmed
        { st with maxTicketPurchaseExceeded := b } numTicketsForPurchase =
      disableBuying isApproved isConfirmed st numTicketsForPurchase := by
  constructor
  · simp [disableBuying, happ, hconf, hbal, hlen, not_le, hpos]
  · intro b
    rfl

/-- Witness for C10: approval granted, not confirmed, quantity 1, one ticket
set, cap-exceeded flag set. -/
theorem disableBuying_ignores_capExceeded_witness :
    disableBuying true false ⟨1, false, true⟩ 1 = false ∧
    ∀ b : Bool, disableBuying true false
        { (⟨1, false, true⟩ : ModalState) with maxTicketPurchaseExceeded := b } 1 =
      disableBuying true false ⟨1, false, true⟩ 1 :=
  disableBuying_ignores_capExceeded true false ⟨1, false, true⟩ 1 rfl rfl rfl rfl
    (by decide) (by decide)
